import Mathlib

/-!
Verification of the SVG → vector-drawable converter (`svg2vector.py`,
`svg_node.py`, `svg_tree.py`, `svg_leaf_node.py`) against its
natural-language specification.  Machine floats are modelled by `ℚ`;
Python dicts by ordered association lists; Python exceptions by `Except`.
All definitions come first, followed by the theorems.
-/

/-- Affine transform, six floats in the order used by the source tuples
`(a, b, c, d, e, f)` mapping `(x, y) ↦ (a·x + c·y + e, b·x + d·y + f)`. -/
structure Transform where
  a : ℚ
  b : ℚ
  c : ℚ
  d : ℚ
  e : ℚ
  f : ℚ
  deriving DecidableEq, Repr

/-- The identity transform `(1, 0, 0, 1, 0, 0)` (`svg_node.py` lines 75–82). -/
def identity_transform : Transform := ⟨1, 0, 0, 1, 0, 0⟩

/-- `SvgNode.concatenate_transform` (`svg_node.py` lines 126–139):
concatenates two affine transformations, t1 and t2, as t1 * t2. -/
def concatenate_transform (t1 t2 : Transform) : Transform :=
  ⟨t1.a * t2.a + t1.c * t2.b,
   t1.b * t2.a + t1.d * t2.b,
   t1.a * t2.c + t1.c * t2.d,
   t1.b * t2.c + t1.d * t2.d,
   t1.a * t2.e + t1.c * t2.f + t1.e,
   t1.b * t2.e + t1.d * t2.f + t1.f⟩

/-- Lookup in an association list, mirroring Python `dict.get`. -/
def assoc_find {α : Type} : List (String × α) → String → Option α
  | [], _ => none
  | (k', v) :: rest, k => if k' == k then some v else assoc_find rest k

/-- A Python `Dict[str, str]` as an insertion-ordered association list
(the model of `SvgNode.vd_attributes_map`). -/
def AttrMap : Type := List (String × String)

/-- Lookup in an attribute map (`dict.get`). -/
def attr_find (m : AttrMap) (k : String) : Option String := assoc_find m k

/-- `dict.pop(k, None)`: removes the key `k` without error if absent. -/
def attr_pop (m : AttrMap) (k : String) : AttrMap :=
  List.filter (fun p => p.1 != k) m

/-- `dict[k] = v`: updates the key in place if present, else appends. -/
def attr_set : AttrMap → String → String → AttrMap
  | [], k, v => [(k, v)]
  | (k', v') :: rest, k, v =>
    if k' == k then (k, v) :: rest else (k', v') :: attr_set rest k v

/-- `SvgNode.fill_presentation_attributes_internal` (`svg_node.py` lines
271–287) acting on the node's attribute map.  Returns the updated map and
the logged error message, if any.  The `nonzero`/`evenodd` conversion, the
`url(` check, and the stroke-removal on `stroke-width = "0"` are modelled
exactly; the debug logging is stateless and omitted. -/
def fill_presentation_attributes_internal (name value : String) (m : AttrMap) :
    AttrMap × Option String :=
  let value := if name == "fill-rule" || name == "clip-rule" then
      (if value == "nonzero" then "nonZero"
       else if value == "evenodd" then "evenOdd" else value)
    else value
  if value.startsWith "url(" && !(name == "fill" || name == "stroke") then
    (m, some ("Unsupported URL value: " ++ value))
  else
    let m := if name == "stroke-width" && value == "0" then attr_pop m "stroke" else m
    (attr_set m name value, none)

/-- `SvgNode.fill_presentation_attributes` (`svg_node.py` lines 288–289):
delegates to the internal variant. -/
def fill_presentation_attributes (name value : String) (m : AttrMap) : AttrMap :=
  (fill_presentation_attributes_internal name value m).1

/-- `extract_offset` (`svg2vector.py` lines 415–423).  The offset string is
modelled by its parsed content: `percent` records whether it ended with `%`
and `v` is the parsed number (divided by 100 when `percent`). -/
def extract_offset (percent : Bool) (v : ℚ) (greatest_offset : ℚ) : ℚ :=
  let x := if percent then v / 100 else v
  let x := min 1 (max x 0)
  max x greatest_offset

/-- The offset-normalization fold of `extract_gradient_node`
(`svg2vector.py` lines 371–413): each stop's stored offset is the running
`greatest_offset` after `extract_offset`, starting from `0.0`. -/
def normalize_offsets_aux : ℚ → List (Bool × ℚ) → List ℚ
  | _, [] => []
  | g, (p, v) :: rest =>
    let g' := extract_offset p v g
    g' :: normalize_offsets_aux g' rest

/-- Offsets stored for a gradient's stop list, in order. -/
def normalize_offsets (stops : List (Bool × ℚ)) : List ℚ :=
  normalize_offsets_aux 0 stops

/-- Python `str.rstrip(c)`: removes all trailing occurrences of `c`. -/
def py_rstrip (s : String) (c : Char) : String :=
  String.mk ((s.data.reverse.dropWhile (fun x => x == c)).reverse)

/-- The whitespace characters recognized by Python `str.strip()`. -/
def py_isspace (c : Char) : Bool :=
  c == ' ' || c == '\t' || c == '\n' || c == '\r' || c == '\x0b' || c == '\x0c'

/-- Python `str.strip()`: removes leading and trailing whitespace. -/
def py_strip (s : String) : String :=
  String.mk (((s.data.dropWhile py_isspace).reverse.dropWhile py_isspace).reverse)

/-- Zero-pads a number to the six fractional digits of `%.6f`. -/
def pad_six (n : Nat) : String :=
  let s := toString n
  String.mk (List.replicate (6 - s.length) '0') ++ s

/-- `format_float_value` (`svg2vector.py` lines 184–186):
`f"{value:.6f}".rstrip('0').rstrip('.')`.  The six-decimal rendering is
computed exactly from the rational's numerator and denominator; the only
divergence from Python is the rounding of a tie at the seventh decimal
(half-up here, half-even in Python), which no claim exercises. -/
def format_float_value (q : ℚ) : String :=
  let sgn := if q.num < 0 then "-" else ""
  let n : Nat := (2 * q.num.natAbs * 1000000 + q.den) / (2 * q.den)
  let ip := n / 1000000
  let fp := n % 1000000
  py_rstrip (py_rstrip (sgn ++ toString ip ++ "." ++ pad_six fp) '0') '.'

/-- Modelled from the spec: `PathBuilder` is not under `src/` (it is imported
from `com.android.ide.common.vectordrawable.path_builder`).  Per §4.2 it is a
builder for move/line/horizontal/vertical/arc/close primitives accumulating
an SVG path string; absolute primitives use uppercase command letters and
relative ones lowercase, with numbers formatted with trailing zeros and the
decimal point dropped. -/
structure PathBuilder where
  pd : String
  deriving DecidableEq, Repr

/-- A fresh `PathBuilder()`. -/
def path_builder_new : PathBuilder := ⟨""⟩

/-- Modelled from the spec: absolute move `M x,y`. -/
def PathBuilder.absolute_move_to (b : PathBuilder) (x y : ℚ) : PathBuilder :=
  ⟨b.pd ++ "M" ++ format_float_value x ++ "," ++ format_float_value y⟩

/-- Modelled from the spec: absolute line `L x,y`. -/
def PathBuilder.absolute_line_to (b : PathBuilder) (x y : ℚ) : PathBuilder :=
  ⟨b.pd ++ "L" ++ format_float_value x ++ "," ++ format_float_value y⟩

/-- Modelled from the spec: relative horizontal line `h x`. -/
def PathBuilder.relative_horizontal_to (b : PathBuilder) (x : ℚ) : PathBuilder :=
  ⟨b.pd ++ "h" ++ format_float_value x⟩

/-- Modelled from the spec: relative vertical line `v y`. -/
def PathBuilder.relative_vertical_to (b : PathBuilder) (y : ℚ) : PathBuilder :=
  ⟨b.pd ++ "v" ++ format_float_value y⟩

/-- Modelled from the spec: absolute arc
`arc-to(rx, ry, rotation, large-arc, sweep, x, y)`. -/
def PathBuilder.absolute_arc_to (b : PathBuilder) (rx ry : ℚ)
    (rotation large_arc sweep : Bool) (x y : ℚ) : PathBuilder :=
  ⟨b.pd ++ "A" ++ format_float_value rx ++ "," ++ format_float_value ry ++ " "
      ++ (if rotation then "1" else "0") ++ " "
      ++ (if large_arc then "1" else "0") ++ ","
      ++ (if sweep then "1" else "0") ++ " "
      ++ format_float_value x ++ "," ++ format_float_value y⟩

/-- Modelled from the spec: relative close `z`. -/
def PathBuilder.relative_close (b : PathBuilder) : PathBuilder :=
  ⟨b.pd ++ "z"⟩

/-- `PathBuilder.to_string`. -/
def PathBuilder.to_string (b : PathBuilder) : String := b.pd

/-- The path-construction core of `extract_rect_item` (`svg2vector.py`
lines 674–756), after the attribute loop has produced `x`, `y`, `rx`, `ry`
(default `0.0`), `width`/`height` (`none` models their NaN default, which
is also what an unparsable value leaves behind) and `pure_transparent`.
Returns the path data set on the leaf, or `none` when no path is emitted. -/
def extract_rect_item (x y : ℚ) (width height : Option ℚ) (rx ry : ℚ)
    (pure_transparent : Bool) : Option String :=
  match width, height with
  | some width, some height =>
    if pure_transparent then none
    else
      let builder := path_builder_new
      let builder :=
        if rx ≤ 0 ∧ ry ≤ 0 then
          (((builder.absolute_move_to x y).relative_horizontal_to width).relative_vertical_to
              height).relative_horizontal_to (-width)
        else
          let ry := if ry == 0 then rx else ry
          let rx := if rx == 0 then ry else rx
          let rx := if rx > width / 2 then width / 2 else rx
          let ry := if ry > height / 2 then height / 2 else ry
          ((((((((builder.absolute_move_to (x + rx) y).absolute_line_to (x + width - rx)
              y).absolute_arc_to rx ry false false true (x + width)
              (y + ry)).absolute_line_to (x + width)
              (y + height - ry)).absolute_arc_to rx ry false false true (x + width - rx)
              (y + height)).absolute_line_to (x + rx)
              (y + height)).absolute_arc_to rx ry false false true x
              (y + height - ry)).absolute_line_to x (y + ry)).absolute_arc_to rx ry false
              false true (x + rx) y
      some builder.relative_close.to_string
  | _, _ => none

/-- `SvgLeafNode` state at serialization time (`svg_leaf_node.py`):
optional path data, the attribute map, and whether the fill/stroke
gradient nodes are set. -/
structure SvgLeaf where
  path_data : Option String
  attrs : AttrMap
  has_fill_gradient : Bool
  has_stroke_gradient : Bool

/-- `empty_fill` of `SvgLeafNode.write_xml` (`svg_leaf_node.py` line 211). -/
def leaf_empty_fill (l : SvgLeaf) : Bool :=
  attr_find l.attrs "fill" == some "none" || attr_find l.attrs "fill" == some "#00000000"

/-- `empty_stroke` of `SvgLeafNode.write_xml` (`svg_leaf_node.py` line 212). -/
def leaf_empty_stroke (l : SvgLeaf) : Bool :=
  attr_find l.attrs "stroke" == none || attr_find l.attrs "stroke" == some "none"

/-- The early-return conditions of `SvgLeafNode.write_xml`
(`svg_leaf_node.py` lines 204–214): blank path data, or fill and stroke
both empty. -/
def write_xml_skipped (l : SvgLeaf) : Bool :=
  match l.path_data with
  | none => true
  | some pd => py_strip pd == "" || (leaf_empty_fill l && leaf_empty_stroke l)

/-- Whether `write_xml` emits the default `android:fillColor="#FF000000"`
(`svg_leaf_node.py` lines 220–225). -/
def write_xml_default_fill (l : SvgLeaf) : Bool :=
  !write_xml_skipped l && attr_find l.attrs "fill" == none && !l.has_fill_gradient

/-- Whether `write_xml` emits the default `android:strokeWidth="1"`
(`svg_leaf_node.py` lines 227–234). -/
def write_xml_default_stroke_width (l : SvgLeaf) : Bool :=
  !write_xml_skipped l && !leaf_empty_stroke l
    && attr_find l.attrs "stroke-width" == none && !l.has_stroke_gradient

/-- Python `str.lower()` (ASCII case folding, which is all the source uses). -/
def py_lower (s : String) : String := String.mk (s.data.map Char.toLower)

/-- Whether `l` starts with the pattern `p`. -/
def list_starts_with : List Char → List Char → Bool
  | _, [] => true
  | [], _ :: _ => false
  | c :: cs, p :: ps => c == p && list_starts_with cs ps

/-- Splits `l` at the first occurrence of `sep`, returning the part before
it and the part after it. -/
def find_sep (sep : List Char) : List Char → Option (List Char × List Char)
  | [] => none
  | c :: rest =>
    if list_starts_with (c :: rest) sep then some ([], (c :: rest).drop sep.length)
    else
      match find_sep sep rest with
      | none => none
      | some (pre, post) => some (c :: pre, post)

/-- Fuelled worker for `py_split`; the fuel is at least the list length,
and each found separator consumes at least one character. -/
def py_split_aux (sep : List Char) : Nat → List Char → List (List Char)
  | 0, l => [l]
  | fuel + 1, l =>
    match find_sep sep l with
    | none => [l]
    | some (pre, post) => pre :: py_split_aux sep fuel post

/-- Python `str.split(sep)` with a non-empty separator: splits on every
occurrence, keeping empty parts. -/
def py_split (s sep : String) : List String :=
  if sep.data.isEmpty then [s]
  else (py_split_aux sep.data (s.data.length + 1) s.data).map String.mk

/-- Stand-ins for the transcendental functions `math.radians`, `math.cos`,
`math.sin` and `math.tan` used by `SvgNode.parse_one_transform`; the
claims under verification are independent of their values. -/
structure TrigOracle where
  radians : ℚ → ℚ
  cosq : ℚ → ℚ
  sinq : ℚ → ℚ
  tanq : ℚ → ℚ

/-- `SvgNode.parse_one_transform` (`svg_node.py` lines 141–215).  The
`numbers` argument is the result of `get_numbers(data)` (`None` when the
data was empty or had an unparsable float).  `Except.error ()` models the
`NameError` raised at line 158, where the matrix branch reads the undefined
name `numLength` (every other branch uses the local `num_length`);
`Except.ok none` models returning `None` (the function is ignored). -/
def parse_one_transform (tr : TrigOracle) (ty : String) (numbers : Option (List ℚ)) :
    Except Unit (Option Transform) :=
  match numbers with
  | none => .ok none
  | some nums =>
    let num_length := nums.length
    if py_lower ty == "matrix" then
      .error ()
    else if py_lower ty == "translate" then
      if num_length != 1 && num_length != 2 then .ok none
      else .ok (some ⟨1, 0, 0, 1, nums.getD 0 0, if num_length == 2 then nums.getD 1 0 else 0⟩)
    else if py_lower ty == "scale" then
      if num_length != 1 && num_length != 2 then .ok none
      else
        let scale_x := nums.getD 0 0
        let scale_y := if num_length == 2 then nums.getD 1 0 else nums.getD 0 0
        .ok (some ⟨scale_x, 0, 0, scale_y, 0, 0⟩)
    else if py_lower ty == "rotate" then
      if num_length != 1 && num_length != 3 then .ok none
      else
        let angle := tr.radians (nums.getD 0 0)
        let center_x := if num_length == 3 then nums.getD 1 0 else 0
        let center_y := if num_length == 3 then nums.getD 2 0 else 0
        let translate_to_origin : Transform := ⟨1, 0, 0, 1, -center_x, -center_y⟩
        let rot : Transform :=
          ⟨tr.cosq angle, tr.sinq angle, -(tr.sinq angle), tr.cosq angle, 0, 0⟩
        let translate_back : Transform := ⟨1, 0, 0, 1, center_x, center_y⟩
        .ok (some (concatenate_transform
          (concatenate_transform translate_to_origin rot) translate_back))
    else if py_lower ty == "skewX" then
      if num_length != 1 then .ok none
      else .ok (some ⟨1, 0, tr.tanq (tr.radians (nums.getD 0 0)), 1, 0, 0⟩)
    else if py_lower ty == "skewY" then
      if num_length != 1 then .ok none
      else .ok (some ⟨1, tr.tanq (tr.radians (nums.getD 0 0)), 0, 1, 0, 0⟩)
    else
      .ok none

/-- The composition loop of `SvgNode.parse_local_transform` (`svg_node.py`
lines 113–124), starting from the node's current local transform.  Each
list entry is one `(keyword, get_numbers(args))` pair from the regex split;
a raised exception propagates (the loop has no handler). -/
def parse_local_transform (tr : TrigOracle) (t0 : Transform)
    (parts : List (String × Option (List ℚ))) : Except Unit Transform :=
  match parts with
  | [] => .ok t0
  | (k, nums) :: rest =>
    match parse_one_transform tr k nums with
    | .error e => .error e
    | .ok none => parse_local_transform tr t0 rest
    | .ok (some t) => parse_local_transform tr (concatenate_transform t0 t) rest

/-- The keys of `presentation_map` (`svg2vector.py` lines 69–81). -/
def presentation_map_keys : List String :=
  ["clip", "clip-rule", "fill", "fill-rule", "fill-opacity", "opacity",
   "stroke", "stroke-opacity", "stroke-linejoin", "stroke-linecap", "stroke-width"]

/-- `add_style_to_path` (`svg2vector.py` lines 916–938) acting on the
node's attribute map.  The clip-path/mask deferral at lines 933–938 mutates
a tree-level table, not this map, and is not modelled.  Note `opacity` is a
key of `presentation_map`, so the `elif attr == SVG_OPACITY` branch is
unreachable; it is kept for fidelity. -/
def add_style_to_path (m : AttrMap) (value : Option String) : AttrMap :=
  match value with
  | none => m
  | some v =>
    if v == "" then m
    else
      (py_split v ";").reverse.foldl (fun m sub_style =>
        match py_split sub_style ":" with
        | [n, val] =>
          if n != "" && val != "" then
            let attr := py_strip n
            let v2 := py_strip val
            if presentation_map_keys.contains attr then
              fill_presentation_attributes attr v2 m
            else if attr == "opacity" then
              fill_presentation_attributes "fill-opacity" val m
            else m
          else m
        | _ => m) m

/-- The class-registration core of `extract_style_node` (`svg2vector.py`
lines 438–467), applied to the collected style text and the current
`style_class_attribute_map`.  Line 451 splits each chunk on the literal
two-character string backslash + left brace (Python `str.split` is not
regex-based), modelled verbatim. -/
def extract_style_classes (style_data : String)
    (m0 : List (String × String)) : List (String × String) :=
  if style_data != "" then
    (py_split style_data "\x7d").foldl (fun m a_class_data =>
      match py_split a_class_data "\\\x7b" with
      | c0 :: c1 :: _ =>
        let class_name := py_strip c0
        let style_attr := py_strip c1
        (py_split class_name ",").foldl (fun m split_class_name =>
          let cn := py_strip split_class_name
          let style_attr_temp :=
            match assoc_find m cn with
            | some existing =>
              if existing != "" then style_attr ++ ";" ++ existing else style_attr
            | none => style_attr
          attr_set m cn style_attr_temp) m
      | _ => m) m0
  else m0

/-- `SvgTree.get_style_class_attr` (`svg_tree.py` lines 333–334). -/
def get_style_class_attr (m : List (String × String)) (classname : String) : Option String :=
  assoc_find m classname

/-- `SvgLogLevel` (`svg_tree.py` lines 50–52). -/
inductive SvgLogLevel where
  | error
  | warning
  deriving DecidableEq, Repr

/-- `SvgLogLevel.name` as used by `LogMessage.get_formatted_message`. -/
def svg_log_level_name : SvgLogLevel → String
  | .error => "ERROR"
  | .warning => "WARNING"

/-- `LogMessage` (`svg_tree.py` lines 40–47). -/
structure LogMessage where
  level : SvgLogLevel
  line : Nat
  message : String
  deriving DecidableEq, Repr

/-- `LogMessage.get_formatted_message` (`svg_tree.py` lines 46–47). -/
def get_formatted_message (m : LogMessage) : String :=
  svg_log_level_name m.level
    ++ (if m.line == 0 then "" else " @ line " ++ toString m.line)
    ++ ": " ++ m.message

/-- Python string `<`: lexicographic comparison of code points. -/
def py_str_lt_chars : List Char → List Char → Bool
  | [], [] => false
  | [], _ :: _ => true
  | _ :: _, [] => false
  | c :: cs, d :: ds =>
    if c.toNat < d.toNat then true
    else if d.toNat < c.toNat then false
    else py_str_lt_chars cs ds

/-- Python string `<` on `String`. -/
def py_str_lt (a b : String) : Bool := py_str_lt_chars a.data b.data

/-- The comparison generated by `dataclass(order=True)` restricted to
messages of equal level: the `(level, line, message)` tuple comparison
short-circuits through level equality to `(line, message)`. -/
def log_message_lt (m1 m2 : LogMessage) : Bool :=
  decide (m1.line < m2.line)
    || (m1.line == m2.line && py_str_lt m1.message m2.message)

/-- Stable insertion used to model `list.sort()` on same-level messages. -/
def insert_message (x : LogMessage) : List LogMessage → List LogMessage
  | [] => [x]
  | y :: rest => if log_message_lt x y then x :: y :: rest else y :: insert_message x rest

/-- `list.sort()` on messages all sharing one level (stable, ascending by
`(line, message)`). -/
def sort_messages (l : List LogMessage) : List LogMessage :=
  l.foldl (fun acc x => insert_message x acc) []

/-- Newline join of the formatted messages (`svg_tree.py` lines 229–236). -/
def join_lines : List String → String
  | [] => ""
  | [s] => s
  | s :: rest => s ++ "\n" ++ join_lines rest

/-- `SvgTree.get_error_message` (`svg_tree.py` lines 219–236).  `.error ()`
models the `TypeError` raised by `self.log_messages.sort()` when messages of
both levels are present: the `dataclass(order=True)` tuple comparison
reaches `SvgLogLevel < SvgLogLevel`, and `Enum` members define no ordering.
Any comparison sort that must order an ERROR relative to a WARNING performs
at least one such cross-level comparison, so the crash is exactly the
mixed-level case; with a single level present, tuple comparison
short-circuits through `==` on the level. -/
def get_error_message (msgs : List LogMessage) : Except Unit String :=
  match msgs with
  | [] => .ok ""
  | m :: rest =>
    if rest.any (fun m2 => m2.level != m.level) then .error ()
    else .ok (join_lines ((sort_messages (m :: rest)).map get_formatted_message))

/-- A pending `<use>` group node as seen by the resolution loop: a node
identity (standing for the Python object), the element's `id` attribute,
its source line, and the target id extracted from `href`/`xlink:href` by
`get_id_from_reference` (`none` when neither attribute is present). -/
structure UseNodeM where
  idx : Nat
  self_id : Option String
  line : Nat
  target : Option String
  deriving DecidableEq, Repr

/-- The tree state consulted by `extract_use_node`: `id_map` maps an id to
the node (by identity) registered under it, and `ignored` is the
ignored-ids set. -/
structure UseEnv where
  id_map : List (String × Nat)
  ignored : List String
  deriving DecidableEq, Repr

/-- `extract_use_node` (`svg2vector.py` lines 474–513): the boolean result
together with the number of deep-copied children added.  `.error ()` models
the `TypeError` raised by the broken-reference branch at line 499:
`svg_tree.log_error("Referenced id not found", current_node)` reaches
`log_error_line` (`svg_tree.py` line 216), whose bound call
`self.get_start_line(node)` passes two arguments to the one-parameter
`get_start_line` (`svg_tree.py` line 131, no `self`, not a static method),
so the call raises before anything is logged.  The `x`/`y` translate and
the attribute merging mutate only the use node and its copy, which no
claim under this loop observes. -/
def extract_use_node (env : UseEnv) (pending : List UseNodeM) (u : UseNodeM) :
    Except Unit (Bool × Nat) :=
  match u.target with
  | none => .ok (true, 0)
  | some t =>
    match assoc_find env.id_map t with
    | none =>
      if env.ignored.contains t then .ok (true, 0)
      else .error ()
    | some nidx =>
      if pending.any (fun v => v.idx == nidx) then .ok (false, 0)
      else .ok (true, 1)

/-- One `any(extract_use_node(...) for node in list(nodes))` pass
(`svg2vector.py` line 217): short-circuits at the first node returning
`True`, accumulating the copies added by every call made; an exception
raised by `extract_use_node` propagates (the generator has no handler). -/
def resolve_pass (env : UseEnv) (pending : List UseNodeM) :
    List UseNodeM → Except Unit (Bool × Nat)
  | [] => .ok (false, 0)
  | u :: rest =>
    match extract_use_node env pending u with
    | .error e => .error e
    | .ok r =>
      if r.1 then .ok (true, r.2)
      else
        match resolve_pass env pending rest with
        | .error e => .error e
        | .ok s => .ok (s.1, r.2 + s.2)

/-- Python truthiness of an optional string. -/
def py_truthy (o : Option String) : Bool :=
  match o with
  | none => false
  | some s => s != ""

/-- The successor walk of `report_cycles` (`svg2vector.py` lines 256–263):
follows `edges` until the target is missing/empty or a node repeats,
returning the visited list, final `id_node` and final `target_id`.  Fuelled
by the edge count: each step appends a new node to `visited`. -/
def cycle_walk (edges : List (String × String)) :
    Nat → List String → String → Option String → List String × String × Option String
  | 0, visited, id_node, tid => (visited, id_node, tid)
  | fuel + 1, visited, id_node, tid =>
    if py_truthy tid && !visited.contains id_node then
      match tid with
      | some t => cycle_walk edges fuel (visited ++ [id_node]) t (assoc_find edges t)
      | none => (visited, id_node, tid)
    else (visited, id_node, tid)

/-- `get_cycle_starting_at` (`svg2vector.py` lines 273–283), fuelled by the
cycle length; `buf` starts as the start id. -/
def get_cycle_starting_at (edges : List (String × String))
    (lines_by_id : List (String × Nat)) (start_id : String) :
    Nat → String → String → String
  | 0, buf, _ => buf
  | fuel + 1, buf, id_node =>
    match assoc_find edges id_node with
    | none => buf
    | some nxt =>
      let buf := buf ++ " -> " ++ nxt
      if nxt == start_id then buf
      else
        let ln := (assoc_find lines_by_id nxt).getD 0
        get_cycle_starting_at edges lines_by_id start_id fuel
          (buf ++ " (line " ++ toString ln ++ ")") nxt

/-- The `while edges:` loop of `report_cycles` (`svg2vector.py` lines
256–270), fuelled by the edge count (every pass that finds no cycle removes
its nonempty `visited` set from `edges`).  When a cycle is found, line 267
builds its chain string via `get_cycle_starting_at` — whose own line-number
lookups work, because line 281 calls `SvgTree.get_start_line(...)` through
the class with a single argument — but then line 268's
`svg_tree.log_error(..., node)` hits the same `get_start_line` arity bug as
in `extract_use_node` (`svg_tree.py` lines 131 and 216) and raises
`TypeError` before the cycle error is recorded; `.error ()` models that
raise. -/
def report_cycles_loop (lines_by_id : List (String × Nat)) :
    Nat → List (String × String) → Except Unit Unit
  | 0, _ => .ok ()
  | fuel + 1, edges =>
    match edges with
    | [] => .ok ()
    | (k, v) :: _ =>
      let w := cycle_walk edges (edges.length + 1) [] k (some v)
      if py_truthy w.2.2 then
        let _cycle :=
          get_cycle_starting_at edges lines_by_id w.2.1 (edges.length + 1) w.2.1 w.2.1
        .error ()
      else
        report_cycles_loop lines_by_id fuel
          (edges.filter (fun p => !w.1.contains p.1))

/-- `report_cycles` (`svg2vector.py` lines 242–270): builds the id→target
edge map and line table over the pending nodes carrying both an `id` and an
href, then walks for cycles; it returns normally only when no cycle is
found, and raises `TypeError` (see `report_cycles_loop`) on the first
cycle it tries to log. -/
def report_cycles (pending : List UseNodeM) : Except Unit Unit :=
  let entries := pending.filterMap (fun u =>
    match u.self_id, u.target with
    | some i, some t => if i != "" then some (i, t, u.line) else none
    | _, _ => none)
  let edges := entries.map (fun e => (e.1, e.2.1))
  let lines_by_id := entries.map (fun e => (e.1, e.2.2))
  report_cycles_loop lines_by_id (edges.length + 1) edges

/-- The mutable state of the use-resolution loop: the pending set (as the
iteration list), the logged errors, and the number of deep-copied subtrees
added so far. -/
structure LoopState where
  pending : List UseNodeM
  errors : List String
  copies : Nat
  deriving DecidableEq, Repr

/-- The use-resolution loop of `parse` (`svg2vector.py` lines 214–221),
with explicit fuel (`.ok (s, true)` when the `while` exited, `.ok (s,
false)` when the fuel ran out with the loop still running, `.error ()`
when a pass or `report_cycles` raised).  Faithful to the source, nothing
ever removes a node from the pending set: `svg_tree.py` lines 304–308 only
add to `pending_use_group_set` and `extract_use_node` never mutates it, so
the re-read at line 221 yields the same set; and no diagnostic is ever
appended to `errors` by this loop, since both of its logging paths raise
`TypeError` instead. -/
def resolve_use_loop (env : UseEnv) : Nat → LoopState → Except Unit (LoopState × Bool)
  | 0, s => .ok (s, false)
  | n + 1, s =>
    match s.pending with
    | [] => .ok (s, true)
    | _ :: _ =>
      match resolve_pass env s.pending s.pending with
      | .error e => .error e
      | .ok r =>
        if r.1 then
          resolve_use_loop env n
            { pending := s.pending, errors := s.errors, copies := s.copies + r.2 }
        else
          match report_cycles s.pending with
          | .error e => .error e
          | .ok _ => .ok (s, true)

/-- A document with one `<use id="u" href="#r">` whose target `r` is a
defined, non-pending node: the resolvable-reference fixture. -/
def use_env_resolvable : UseEnv := ⟨[("r", 0)], []⟩

/-- The pending `<use>` node of the resolvable-reference fixture. -/
def use_node_resolvable : UseNodeM := ⟨1, some "u", 2, some "r"⟩

/-- A document with one `<use id="u" href="#nothing">` where `nothing` is
neither defined nor ignored: the broken-reference fixture. -/
def use_env_broken : UseEnv := ⟨[], []⟩

/-- The pending `<use>` node of the broken-reference fixture. -/
def use_node_broken : UseNodeM := ⟨1, some "u", 2, some "nothing"⟩

/-- The id map of the three-node reference cycle `a → b → c → a`. -/
def use_env_cycle : UseEnv := ⟨[("a", 1), ("b", 2), ("c", 3)], []⟩

/-- The pending `<use>` nodes of the cycle `a → b → c → a`, on source lines
2, 3 and 4. -/
def pending_cycle : List UseNodeM :=
  [⟨1, some "a", 2, some "b"⟩, ⟨2, some "b", 3, some "c"⟩, ⟨3, some "c", 4, some "a"⟩]

/-!  Theorems. -/

theorem concatenate_identity_left (t : Transform) :
    concatenate_transform identity_transform t = t := by
  obtain ⟨a, b, c, d, e, f⟩ := t
  simp [concatenate_transform, identity_transform]

theorem concatenate_identity_right (t : Transform) :
    concatenate_transform t identity_transform = t := by
  obtain ⟨a, b, c, d, e, f⟩ := t
  simp [concatenate_transform, identity_transform]

theorem concatenate_assoc (x y z : Transform) :
    concatenate_transform (concatenate_transform x y) z =
      concatenate_transform x (concatenate_transform y z) := by
  obtain ⟨a1, b1, c1, d1, e1, f1⟩ := x
  obtain ⟨a2, b2, c2, d2, e2, f2⟩ := y
  obtain ⟨a3, b3, c3, d3, e3, f3⟩ := z
  simp only [concatenate_transform, Transform.mk.injEq]
  and_intros <;> ring

/-- C2: `compose(identity, T) = T = compose(T, identity)` for every affine
transform `T`, and composition is associative (exact over `ℚ`). -/
theorem c2_compose_identity_and_assoc (t x y z : Transform) :
    concatenate_transform identity_transform t = t ∧
    concatenate_transform t identity_transform = t ∧
    concatenate_transform (concatenate_transform x y) z =
      concatenate_transform x (concatenate_transform y z) :=
  ⟨concatenate_identity_left t, concatenate_identity_right t, concatenate_assoc x y z⟩

theorem attr_find_attr_set_self (m : AttrMap) (k v : String) :
    attr_find (attr_set m k v) k = some v := by
  induction m with
  | nil => simp [attr_set, attr_find, assoc_find]
  | cons hd tl ih =>
    obtain ⟨k', v'⟩ := hd
    by_cases h : k' == k
    · simp [attr_set, h, attr_find, assoc_find]
    · simp only [attr_set, h, Bool.false_eq_true, if_false]
      simpa [attr_find, assoc_find, h] using ih

theorem attr_find_attr_set_ne (m : AttrMap) (k v k' : String) (h : k' ≠ k) :
    attr_find (attr_set m k v) k' = attr_find m k' := by
  induction m with
  | nil => simp [attr_set, attr_find, assoc_find, bne, beq_iff_eq, Ne.symm h]
  | cons hd tl ih =>
    obtain ⟨k0, v0⟩ := hd
    by_cases h0 : k0 == k
    · have hk0 : k0 = k := by simpa [beq_iff_eq] using h0
      subst hk0
      simp [attr_set, attr_find, assoc_find, beq_iff_eq, Ne.symm h]
    · simp only [attr_set, h0, Bool.false_eq_true, if_false]
      by_cases h1 : k0 == k'
      · simp [attr_find, assoc_find, h1]
      · simpa [attr_find, assoc_find, h1] using ih

theorem attr_find_attr_pop_self (m : AttrMap) (k : String) :
    attr_find (attr_pop m k) k = none := by
  induction m with
  | nil => simp [attr_pop, attr_find, assoc_find]
  | cons hd tl ih =>
    obtain ⟨k', v'⟩ := hd
    by_cases h : k' == k
    · have : (k' != k) = false := by simp [bne, h]
      simpa [attr_pop, List.filter, this] using ih
    · have : (k' != k) = true := by simp [bne, h]
      simpa [attr_pop, List.filter, this, attr_find, assoc_find, h] using ih

/-- C10: for every attribute map, applying the presentation attribute
`stroke-width = "0"` through `fill_presentation_attributes` deletes any
stored `stroke` entry (without error even if absent) and stores
`stroke-width` as `"0"`. -/
theorem c10_stroke_width_zero_removes_stroke (m : AttrMap) :
    attr_find (fill_presentation_attributes "stroke-width" "0" m) "stroke" = none ∧
    attr_find (fill_presentation_attributes "stroke-width" "0" m) "stroke-width" = some "0" ∧
    (fill_presentation_attributes_internal "stroke-width" "0" m).2 = none := by
  have h : fill_presentation_attributes_internal "stroke-width" "0" m =
      (attr_set (attr_pop m "stroke") "stroke-width" "0", none) := rfl
  refine ⟨?_, ?_, ?_⟩
  · rw [fill_presentation_attributes, h]
    rw [attr_find_attr_set_ne _ _ _ _ (by decide)]
    exact attr_find_attr_pop_self m "stroke"
  · rw [fill_presentation_attributes, h]
    exact attr_find_attr_set_self _ _ _
  · rw [h]

theorem normalize_offsets_aux_ge (stops : List (Bool × ℚ)) :
    ∀ g x, x ∈ normalize_offsets_aux g stops → g ≤ x := by
  induction stops with
  | nil => intro g x hx; simp [normalize_offsets_aux] at hx
  | cons hd tl ih =>
    obtain ⟨p, v⟩ := hd
    intro g x hx
    simp only [normalize_offsets_aux, List.mem_cons] at hx
    have hg : g ≤ extract_offset p v g := le_max_right _ _
    rcases hx with rfl | hx
    · exact hg
    · exact le_trans hg (ih _ _ hx)

theorem normalize_offsets_aux_chain (stops : List (Bool × ℚ)) :
    ∀ g, List.Chain' (· ≤ ·) (normalize_offsets_aux g stops) := by
  induction stops with
  | nil => intro g; simp [normalize_offsets_aux]
  | cons hd tl ih =>
    obtain ⟨p, v⟩ := hd
    intro g
    simp only [normalize_offsets_aux]
    rw [List.chain'_cons']
    refine ⟨?_, ih _⟩
    intro y hy
    cases htl : normalize_offsets_aux (extract_offset p v g) tl with
    | nil => rw [htl] at hy; simp at hy
    | cons z zs =>
      rw [htl] at hy
      simp only [List.head?_cons, Option.mem_def, Option.some.injEq] at hy
      have hz : z ∈ normalize_offsets_aux (extract_offset p v g) tl := by
        rw [htl]; exact List.mem_cons_self _ _
      exact hy ▸ normalize_offsets_aux_ge tl _ z hz

theorem normalize_offsets_aux_bounds (stops : List (Bool × ℚ)) :
    ∀ g, 0 ≤ g → g ≤ 1 → ∀ x ∈ normalize_offsets_aux g stops, 0 ≤ x ∧ x ≤ 1 := by
  induction stops with
  | nil => intro g _ _ x hx; simp [normalize_offsets_aux] at hx
  | cons hd tl ih =>
    obtain ⟨p, v⟩ := hd
    intro g hg0 hg1 x hx
    have h0 : 0 ≤ extract_offset p v g := le_trans hg0 (le_max_right _ _)
    have h1 : extract_offset p v g ≤ 1 := by
      apply max_le _ hg1
      exact min_le_left _ _
    simp only [normalize_offsets_aux, List.mem_cons] at hx
    rcases hx with rfl | hx
    · exact ⟨h0, h1⟩
    · exact ih _ h0 h1 x hx

/-- C6: gradient stop offsets are clamped to `[0, 1]` and forced
non-decreasing: each stored offset is `max(clamp(parsed), previous max)`
(percentages divided by 100 first), and `[0.5, 0.3, 0.9]` normalizes to
`[0.5, 0.5, 0.9]`. -/
theorem c6_gradient_offsets_normalized :
    (∀ stops : List (Bool × ℚ), List.Chain' (· ≤ ·) (normalize_offsets stops)) ∧
    (∀ stops : List (Bool × ℚ), ∀ x ∈ normalize_offsets stops, 0 ≤ x ∧ x ≤ 1) ∧
    (∀ (p : Bool) (v g : ℚ),
      extract_offset p v g = max (min 1 (max (if p then v / 100 else v) 0)) g) ∧
    normalize_offsets [(false, 1/2), (false, 3/10), (false, 9/10)] =
      [1/2, 1/2, 9/10] := by
  refine ⟨fun stops => normalize_offsets_aux_chain stops 0,
          fun stops => normalize_offsets_aux_bounds stops 0 le_rfl (by norm_num),
          fun p v g => rfl, ?_⟩
  norm_num [normalize_offsets, normalize_offsets_aux, extract_offset, min_def, max_def]

/-- Witness for C6 at a concrete stop list: the single stored offset of
`[(false, 1/2)]` lies in `[0, 1]`. -/
theorem c6_gradient_offsets_normalized_witness : (0 : ℚ) ≤ 1/2 ∧ (1/2 : ℚ) ≤ 1 :=
  c6_gradient_offsets_normalized.2.1 [(false, 1/2)] (1/2)
    (by norm_num [normalize_offsets, normalize_offsets_aux, extract_offset, min_def, max_def])

/-- C3 counterexample: the plain rect `(10, 10, 100, 50)` does not lower to
the absolute-command string claimed by the spec; the source emits relative
`h`/`v` commands (`svg2vector.py` lines 726–730 call
`relative_horizontal_to`/`relative_vertical_to`). -/
theorem c3_plain_rect_counterexample :
    extract_rect_item 10 10 (some 100) (some 50) 0 0 false ≠ some "M10,10H110V60H10Z" := by
  decide

/-- C3 (amended): a plain (non-rounded) rect `(x, y, w, h)` with no NaN
attribute lowers to the relative-command path `M x,y h w v h h -w z`; in
particular rect `(10, 10, 100, 50)` lowers to exactly `M10,10h100v50h-100z`,
with trailing zeros and decimal points dropped from each number. -/
theorem c3_plain_rect_lowering :
    (∀ x y w h : ℚ,
      extract_rect_item x y (some w) (some h) 0 0 false =
        some ("M" ++ format_float_value x ++ "," ++ format_float_value y
          ++ "h" ++ format_float_value w ++ "v" ++ format_float_value h
          ++ "h" ++ format_float_value (-w) ++ "z")) ∧
    extract_rect_item 10 10 (some 100) (some 50) 0 0 false = some "M10,10h100v50h-100z" := by
  refine ⟨fun x y w h => rfl, by decide⟩

/-- C9 counterexample: a leaf with a stroke color but no fill attribute still
gets the default opaque-black fill, contradicting the claim's "and no
stroke" condition (`svg_leaf_node.py` line 220 tests only the fill color and
the fill gradient). -/
theorem c9_default_fill_despite_stroke :
    write_xml_default_fill ⟨some "M0,0", [("stroke", "#ff0000")], false, false⟩ = true ∧
    attr_find [("stroke", "#ff0000")] "stroke" ≠ none := by
  constructor
  · decide
  · decide

/-- C9 (amended): for a serialized leaf that is not skipped, the default
opaque-black fill is injected iff the leaf has no fill attribute and no
fill-gradient (regardless of stroke), and the default stroke width `"1"` is
injected iff a stroke color exists (not `none`) but no `stroke-width`
attribute and no stroke-gradient were set. -/
theorem c9_default_injection_conditions (l : SvgLeaf) (h : write_xml_skipped l = false) :
    (write_xml_default_fill l = true ↔
      attr_find l.attrs "fill" = none ∧ l.has_fill_gradient = false) ∧
    (write_xml_default_stroke_width l = true ↔
      attr_find l.attrs "stroke" ≠ none ∧ attr_find l.attrs "stroke" ≠ some "none" ∧
      attr_find l.attrs "stroke-width" = none ∧ l.has_stroke_gradient = false) := by
  constructor
  · simp [write_xml_default_fill, h, Bool.and_eq_true, Bool.not_eq_true']
  · simp [write_xml_default_stroke_width, leaf_empty_stroke, h, Bool.and_eq_true,
      Bool.not_eq_true', not_or, and_assoc]

/-- Witness for C9 at a concrete leaf with path data `M1,1` and no
attributes: the default fill is injected. -/
theorem c9_default_injection_conditions_witness :
    write_xml_default_fill ⟨some "M1,1", [], false, false⟩ = true :=
  ((c9_default_injection_conditions ⟨some "M1,1", [], false, false⟩ (by decide)).1).mpr
    (by exact ⟨rfl, rfl⟩)

/-- C5: evaluation at the failing input.  Any `matrix(...)` transform whose
argument string parses as numbers raises `NameError` (`numLength` at
`svg_node.py` line 158 is undefined; every other branch uses `num_length`),
instead of being ignored on a wrong argument count as the claim states.
Wrong argument counts for the other keywords and unknown keywords are
ignored without an exception, and an ignored function leaves the rest of
the chain composing. -/
theorem c5_parse_one_transform_matrix_crash (tr : TrigOracle) :
    parse_one_transform tr "matrix" (some [1, 2, 3, 4, 5]) = .error () ∧
    parse_one_transform tr "matrix" (some [1, 0, 0, 1, 0, 0]) = .error () ∧
    parse_one_transform tr "translate" (some [1, 2, 3]) = .ok none ∧
    parse_one_transform tr "scale" (some [1, 2, 3]) = .ok none ∧
    parse_one_transform tr "rotate" (some [1, 2]) = .ok none ∧
    parse_one_transform tr "skewX" (some [1, 2]) = .ok none ∧
    parse_one_transform tr "frobnicate" (some [1]) = .ok none ∧
    parse_local_transform tr identity_transform
      [("translate", some [5]), ("frobnicate", some [1]), ("translate", some [2, 3])] =
      .ok ⟨1, 0, 0, 1, 7, 3⟩ := by
  refine ⟨rfl, rfl, rfl, rfl, rfl, rfl, rfl, ?_⟩
  have h : parse_local_transform tr identity_transform
      [("translate", some [5]), ("frobnicate", some [1]), ("translate", some [2, 3])] =
      .ok (concatenate_transform
        (concatenate_transform identity_transform ⟨1, 0, 0, 1, 5, 0⟩) ⟨1, 0, 0, 1, 2, 3⟩) := rfl
  rw [h]
  norm_num [concatenate_transform, identity_transform, Transform.mk.injEq]

theorem resolve_loop_resolvable_aux :
    ∀ (n : Nat) (e : List String) (c : Nat),
      resolve_use_loop use_env_resolvable n ⟨[use_node_resolvable], e, c⟩ =
        .ok (⟨[use_node_resolvable], e, c + n⟩, false) := by
  intro n
  induction n with
  | zero => intro e c; rfl
  | succ n ih =>
    intro e c
    have hstep : resolve_use_loop use_env_resolvable (n + 1) ⟨[use_node_resolvable], e, c⟩ =
        resolve_use_loop use_env_resolvable n ⟨[use_node_resolvable], e, c + 1⟩ := rfl
    rw [hstep, ih]
    simp [Nat.add_assoc, Nat.add_comm 1 n]

/-- C1: evaluation at the failing input.  With a single pending `<use>`
node whose target resolves successfully, the fixed-point loop never
terminates: nothing removes the node from the pending set, so every pass
resolves it again — after `n` iterations the loop is still running (no
exception either), the pending set is unchanged, and `n` duplicate deep
copies have been added.  This contradicts the claim that the loop ends
whenever pending nodes resolve successfully. -/
theorem c1_use_resolution_loop_diverges (n : Nat) :
    resolve_use_loop use_env_resolvable n ⟨[use_node_resolvable], [], 0⟩ =
      .ok (⟨[use_node_resolvable], [], n⟩, false) := by
  simpa using resolve_loop_resolvable_aux n [] 0

/-- C8: evaluation at the failing inputs.  Both halves of the claim crash
instead of logging: `SvgTree.get_start_line` (`svg_tree.py` line 131) takes
only `node`, so the bound call `self.get_start_line(node)` in
`log_error_line` (line 216) raises `TypeError` for every non-`None` node.
A reference to a nonexistent, non-ignored id therefore makes the first
resolution pass raise at `svg2vector.py` line 499 — no "referenced id not
found" error is ever logged, for any positive fuel.  For the 3-node cycle
`a → b → c → a`, the detection walk does find the cycle and
`get_cycle_starting_at` builds exactly the chain the claim names (its line
lookups use the working class-access call at line 281), but `report_cycles`
then raises at line 268 instead of logging exactly one cycle error, and so
does the whole loop. -/
theorem c8_reference_errors_crash :
    (∀ n : Nat,
      resolve_use_loop use_env_broken (n + 1) ⟨[use_node_broken], [], 0⟩ = .error ()) ∧
    get_cycle_starting_at [("a", "b"), ("b", "c"), ("c", "a")]
        [("a", 2), ("b", 3), ("c", 4)] "a" 4 "a" "a" =
      "a -> b (line 3) -> c (line 4) -> a" ∧
    report_cycles pending_cycle = .error () ∧
    resolve_use_loop use_env_cycle 5 ⟨pending_cycle, [], 0⟩ = .error () := by
  exact ⟨fun n => rfl, rfl, rfl, rfl⟩

/-- C4: evaluation at the failing input.  Processing the style block
`.cls{fill:#ff0000;}` registers no class at all: line 451 of
`svg2vector.py` splits each chunk on the literal two-character string
`\{` (a leftover regex), which never occurs, so every chunk is skipped as
"empty class info"; the later per-class application therefore looks up
`.cls`, finds nothing, and leaves the element's fill unset instead of
`#ff0000`. -/
theorem c4_style_class_rules_never_registered :
    extract_style_classes ".cls\x7bfill:#ff0000;\x7d" [] = [] ∧
    attr_find
      (add_style_to_path []
        (get_style_class_attr (extract_style_classes ".cls\x7bfill:#ff0000;\x7d" []) ".cls"))
      "fill" = none := by
  exact ⟨rfl, rfl⟩

/-- C7: evaluation at the failing input, and the single-severity half.
With no diagnostics the result is the empty string; with diagnostics of a
single severity the result is one `LEVEL[ @ line N]: message` line per
message, sorted and newline-joined.  But as soon as an ERROR and a WARNING
are both logged, `get_error_message` raises `TypeError` (the
`dataclass(order=True)` comparison of `SvgLogLevel` `Enum` members) instead
of returning the severity-sorted string the claim describes. -/
theorem c7_get_error_message_mixed_crash :
    get_error_message [] = .ok "" ∧
    get_error_message [⟨.error, 5, "x"⟩, ⟨.error, 0, "y"⟩] =
      .ok "ERROR: y\nERROR @ line 5: x" ∧
    get_error_message [⟨.warning, 1, "w"⟩, ⟨.warning, 1, "v"⟩] =
      .ok "WARNING @ line 1: v\nWARNING @ line 1: w" ∧
    get_error_message [⟨.error, 0, "a"⟩, ⟨.warning, 0, "b"⟩] = .error () := by
  exact ⟨rfl, rfl, rfl, rfl⟩
